import Mathlib

/-!
Verification development for the `myscreenshot-tool` repository (Go).

The development shallowly embeds the parts of the program that the
specification talks about:

* `screenshot` package (`EnumWindowsCallback`, `GetWindowList`,
  `CaptureWindow`, `SaveScreenshotWithCounter`, `bitmapToImage`);
* the capture scheduler in `gui/gui.go` (`startCapture`, `stopCapture`,
  `runCaptureLoop`).

Go strings are embedded as `List Char`; machine integers are `Nat`/`Int`
(none of the modelled arithmetic can overflow in the modelled ranges);
fallible OS calls are injected as `Option`/`Bool` parameters of an
environment record, so that each code path can be followed exactly as the
source writes it.
-/

set_option maxHeartbeats 1000000

namespace Screenshot

/-! ## Window enumeration (`EnumWindowsCallback`, `GetWindowList`) -/

/-- Observable attributes of one OS top-level window, as read by the
`IsWindowVisible`, `GetWindowTextLengthW` and `GetWindowTextW` calls that
`EnumWindowsCallback` performs.  `titleLen` is the value returned by
`GetWindowTextLengthW`; `title` is the string produced by `GetWindowTextW`
followed by `UTF16ToString`.  For a well-behaved OS window
`titleLen = title.length`, but the two are kept separate because the code
reads them through two distinct calls. -/
structure OSWindow where
  hwnd : Nat
  visible : Bool
  titleLen : Nat
  title : List Char
deriving DecidableEq

/-- Mirrors `WindowInfo` of the screenshot package: `{HWND, Title}`. -/
structure WindowInfo where
  hwnd : Nat
  title : List Char
deriving DecidableEq

/-- Embedding of `EnumWindowsCallback` (part_000, lines 65-93): one step of
the enumeration, appending to the accumulated `windowList` exactly when the
window is visible, has a nonzero reported title length, and its title is not
"Program Manager", "Default IME" or the empty string. -/
def EnumWindowsCallback (acc : List WindowInfo) (w : OSWindow) : List WindowInfo :=
  if w.visible = false then acc
  else if w.titleLen = 0 then acc
  else if w.title = ("Program Manager").data ∨ w.title = ("Default IME").data ∨
          w.title = ("").data then acc
  else acc ++ [⟨w.hwnd, w.title⟩]

/-- Embedding of `GetWindowList` (part_000, lines 96-104): clears the
shared `windowList` and lets `EnumWindows` fold the callback over the OS
enumeration order `ws`. -/
def GetWindowList (ws : List OSWindow) : List WindowInfo :=
  ws.foldl EnumWindowsCallback []

/-- Modelled from the spec (§4.1): the windows the catalog is said to keep —
currently visible, non-empty title, title outside the exclusion set of known
shell/system pseudo-windows.  Used only to compare `GetWindowList` against
the specification's description. -/
def specKeepsWindow (w : OSWindow) : Bool :=
  w.visible && !(w.titleLen == 0) &&
    !(decide (w.title = ("Program Manager").data ∨ w.title = ("Default IME").data ∨
        w.title = ("").data))

/-! ## Decimal formatting and file naming (`SaveScreenshotWithCounter`) -/

/-- One decimal digit as a character, modelling Go's `fmt` decimal
rendering of a digit value (only ever applied to `d < 10`). -/
def digitChar (d : Nat) : Char :=
  match d with
  | 0 => '0'
  | 1 => '1'
  | 2 => '2'
  | 3 => '3'
  | 4 => '4'
  | 5 => '5'
  | 6 => '6'
  | 7 => '7'
  | 8 => '8'
  | _ => '9'

/-- Big-endian decimal digits of `n` (empty for `n = 0`), computed with
explicit fuel so that the definition is structurally recursive. -/
def natDigitsAux : Nat → Nat → List Nat
  | 0, _ => []
  | fuel + 1, n => if n = 0 then [] else natDigitsAux fuel (n / 10) ++ [n % 10]

/-- Big-endian decimal digits of `n`; `n` itself is always enough fuel. -/
def natDigits (n : Nat) : List Nat :=
  natDigitsAux n n

/-- Decimal rendering of a natural number, modelling Go's `%d` for a
non-negative `int`. -/
def natToDecChars (n : Nat) : List Char :=
  if n = 0 then ['0'] else (natDigits n).map digitChar

/-- Left zero-padding to width `w`, modelling Go's `%0*d` flag. -/
def leftPadZeros (w : Nat) (s : List Char) : List Char :=
  List.replicate (w - s.length) '0' ++ s

/-- Go's `%04d` applied to a non-negative counter. -/
def pad4 (n : Nat) : List Char :=
  leftPadZeros 4 (natToDecChars n)

/-- Two-digit zero padding, used by the `"01" "02" "15" "04" "05"`
components of Go's reference time format. -/
def pad2 (n : Nat) : List Char :=
  leftPadZeros 2 (natToDecChars n)

/-- Wall-clock timestamp fields consumed by
`time.Now().Format("2006-01-02_15-04-05")`. -/
structure DateTime where
  year : Nat
  month : Nat
  day : Nat
  hour : Nat
  minute : Nat
  second : Nat
deriving DecidableEq

/-- Embedding of `t.Format("2006-01-02_15-04-05")` (part_000, line 190):
`YYYY-MM-DD_HH-MM-SS` with zero-padded fields. -/
def formatTimestamp (t : DateTime) : List Char :=
  pad4 t.year ++ ("-").data ++ pad2 t.month ++ ("-").data ++ pad2 t.day ++
    ("_").data ++ pad2 t.hour ++ ("-").data ++ pad2 t.minute ++ ("-").data ++
    pad2 t.second

/-- Embedding of the file-name derivation inside `SaveScreenshotWithCounter`
(part_000, lines 189-193): `fmt.Sprintf("screenshot_%s_%04d.png", ts, counter)`
followed by `filepath.Join(saveDir, fileName)`.  `filepath.Join` is modelled
as inserting one path separator (written `/` here; the separator choice is
irrelevant to every property proved below). -/
def nextFileName (saveDir : List Char) (t : DateTime) (counter : Nat) : List Char :=
  let fileName := ("screenshot_").data ++ formatTimestamp t ++ ("_").data ++
    pad4 counter ++ (".png").data
  saveDir ++ ("/").data ++ fileName

/-- Embedding of `SaveScreenshotWithCounter` (part_000, lines 184-206) with
the filesystem modelled as the list of created file paths: the function
derives the path from its arguments and hands the encoded image to the
write sink, recording the created path.  (`os.MkdirAll`, `os.Create` and
`png.Encode` are the opaque encode-and-write sink of the spec; their
failure modes are not needed by any claim about the name derivation.) -/
def SaveScreenshotWithCounter (fs : List (List Char)) (saveDir : List Char)
    (t : DateTime) (counter : Nat) : List Char × List (List Char) :=
  let filePath := nextFileName saveDir t counter
  (filePath, filePath :: fs)

/-- Value of a decimal character string, used only to reason about the
formatting functions (left fold `a ↦ 10*a + digit`). -/
def decStep (a : Nat) (c : Char) : Nat :=
  10 * a + (c.toNat - 48)

/-- Numeric value of a list of decimal digit characters. -/
def decValue (s : List Char) : Nat :=
  s.foldl decStep 0

/-! ## Bitmap conversion (`bitmapToImage`) -/

/-- Embedding of the pixel-rewrite loop of `bitmapToImage` (part_000, lines
277-287).  The Go loop allocates `img.Pix` of length `width*height*4` and,
for `y` in row order and `x` in column order, writes the four bytes at
`idx = (y*width+x)*4` from the input bytes at `idx+2, idx+1, idx, idx+3`.
Since `idx` enumerates the 4-byte blocks in increasing order, each written
exactly once and together covering the whole buffer, the resulting byte
sequence is the concatenation of those blocks, which is what this
definition produces.  Bytes are embedded as `Nat`. -/
def bitmapToImage (width height : Nat) (pixelData : List Nat) : List Nat :=
  (List.range height).flatMap fun y =>
    (List.range width).flatMap fun x =>
      let idx := (y * width + x) * 4
      [pixelData.getD (idx + 2) 0, pixelData.getD (idx + 1) 0,
       pixelData.getD idx 0, pixelData.getD (idx + 3) 0]

/-! ## Window capture (`CaptureWindow`) -/

/-- Mirrors the `RECT` structure of the screenshot package. -/
structure RECT where
  left : Int
  top : Int
  right : Int
  bottom : Int
deriving DecidableEq

/-- The canonical pixel image of the spec (§3): width, height and the RGBA
byte sequence. -/
structure PixelImage where
  width : Nat
  height : Nat
  pix : List Nat
deriving DecidableEq

/-- Outcomes of the OS calls that one `CaptureWindow` invocation performs,
injected as data so that every code path of the function can be followed.
`windowRect = none` models `GetWindowRect` returning 0; a `0` handle models
failure of the corresponding acquisition call; `printWindowOk`/`bitBltOk`
are the return values of `PrintWindow` and `BitBlt`; `dibExtraction` is the
outcome of the extraction stage inside `bitmapToImage` (desktop DC
acquisition plus `GetDIBits`), delivering the raw BGRA bytes on success. -/
structure CaptureEnv where
  windowRect : Option RECT
  windowDC : Nat
  memDC : Nat
  hBitmap : Nat
  selectObjectResult : Nat
  printWindowOk : Bool
  bitBltOk : Bool
  dibExtraction : Option (List Nat)
deriving DecidableEq

/-- Embedding of `CaptureWindow` (part_000, lines 122-181).  The source
checks `GetWindowRect`, `GetWindowDC`, `CreateCompatibleDC` and
`CreateCompatibleBitmap` and fails on each; `SelectObject` returning 0 is
only logged; `PrintWindow` returning 0 only triggers the `BitBlt` fallback,
whose own return value is never read; finally `bitmapToImage` converts the
extracted bytes, its extraction stage being the only remaining failure
point.  Note that `printWindowOk` and `bitBltOk` do not occur on the
right-hand side: the render outcomes never influence the result. -/
def CaptureWindow (env : CaptureEnv) : Option PixelImage :=
  match env.windowRect with
  | none => none
  | some rect =>
    let width := (rect.right - rect.left).toNat
    let height := (rect.bottom - rect.top).toNat
    if env.windowDC = 0 then none
    else if env.memDC = 0 then none
    else if env.hBitmap = 0 then none
    else
      match env.dibExtraction with
      | none => none
      | some pixelData => some ⟨width, height, bitmapToImage width height pixelData⟩

/-! ## Capture scheduler (`gui/gui.go`) -/

/-- Input of one `ticker.C` tick of `runCaptureLoop`: the wall-clock second
of the tick time `t.Second()`, and the outcomes of
`screenshot.CaptureWindow` and `screenshot.SaveScreenshotWithCounter` on
that tick. -/
structure TickInput where
  second : Nat
  captureOk : Bool
  saveOk : Bool
deriving DecidableEq

/-- Local state of `runCaptureLoop` across ticks: `lastSecond`,
`fileSequenceCounter` and `captureCount` (gui.go, lines 383-387). -/
structure LoopState where
  lastSecond : Nat
  fileSequenceCounter : Nat
  captureCount : Nat
deriving DecidableEq

/-- Embedding of the `ticker.C` case of `runCaptureLoop` (gui.go, lines
424-445): first reset `fileSequenceCounter` and update `lastSecond` when
the tick's second differs from `lastSecond`; then attempt the capture
(`continue` on failure); then attempt the save (log on failure); on success
increment `captureCount` and `fileSequenceCounter`. -/
def tickStep (s : LoopState) (t : TickInput) : LoopState :=
  let s1 : LoopState :=
    if t.second ≠ s.lastSecond then ⟨t.second, 0, s.captureCount⟩ else s
  if t.captureOk then
    if t.saveOk then ⟨s1.lastSecond, s1.fileSequenceCounter + 1, s1.captureCount + 1⟩
    else s1
  else s1

/-- A sequence of interval ticks processed in order. -/
def runTicks (s : LoopState) (ts : List TickInput) : LoopState :=
  ts.foldl tickStep s

/-- Events the `select` of `runCaptureLoop` can wake up on: cancellation of
the capture context, the one-shot duration timer firing, or an interval
tick. -/
inductive LoopEvent where
  | cancel
  | timerFire
  | tick (t : TickInput)
deriving DecidableEq

/-- One `select` round of `runCaptureLoop` (gui.go, lines 409-447), with
the capture duration in minutes as configured.  `none` means the loop
returns (the deferred handler then puts the session back to `Idle`).  On
`cancel` the loop returns; on the timer case the source re-checks
`captureDuration > 0` before returning (with duration 0 the timer channel
is `nil` and the case can in fact never fire — the guard makes the model
conservative even if it did); a tick never exits the loop. -/
def loopStep (captureDurationMin : Nat) (s : LoopState) : LoopEvent → Option LoopState
  | LoopEvent.cancel => none
  | LoopEvent.timerFire => if 0 < captureDurationMin then none else some s
  | LoopEvent.tick t => some (tickStep s t)

/-- Runs the capture loop over a list of delivered events; `some s` means
the loop is still in `Capturing` with local state `s`, `none` that it has
returned to `Idle`. -/
def runLoop (d : Nat) : LoopState → List LoopEvent → Option LoopState
  | s, [] => some s
  | s, e :: es =>
    match loopStep d s e with
    | none => none
    | some s2 => runLoop d s2 es

/-- Session state shared between the UI and the loop: the `IsCapturing`
flag together with the externally reported counters. -/
structure Session where
  isCapturing : Bool
  captureCount : Nat
  fileSequenceCounter : Nat
deriving DecidableEq

/-- Embedding of `startCapture` (gui.go, lines 304-328) composed with the
validation prefix of `runCaptureLoop` (lines 363-372), sequentialised.
Returns the final session, the successive values written to `IsCapturing`
under the lock (each such write is observable by the UI and by concurrent
start/stop requests), and whether the ticker loop is reached (so that
capture ticks can run at all).

The source first checks `IsCapturing` and returns when already capturing;
otherwise it sets `IsCapturing = true` (and displays "Status:
Capturing..."), and only then validates: `HWND == 0` shows an error and
calls `stopCapture` (writing `IsCapturing = false`); otherwise
`runCaptureLoop` is spawned, which returns on `interval <= 0` or on
`os.MkdirAll` failure, its deferred handler writing `IsCapturing = false`.
Only after passing all three checks does the ticker loop start. -/
def startCapture (s : Session) (hwnd : Nat) (intervalMs : Int) (mkdirOk : Bool) :
    Session × List Bool × Bool :=
  if s.isCapturing then (s, [], false)
  else if hwnd = 0 then
    (⟨false, s.captureCount, s.fileSequenceCounter⟩, [true, false], false)
  else if intervalMs ≤ 0 then
    (⟨false, s.captureCount, s.fileSequenceCounter⟩, [true, false], false)
  else if mkdirOk = false then
    (⟨false, s.captureCount, s.fileSequenceCounter⟩, [true, false], false)
  else
    (⟨true, s.captureCount, s.fileSequenceCounter⟩, [true], true)

/-! ## Helper lemmas -/

/-- Unfolding lemma for `runLoop` on a cons cell. -/
theorem runLoop_cons (d : Nat) (s : LoopState) (e : LoopEvent) (es : List LoopEvent) :
    runLoop d s (e :: es) =
      match loopStep d s e with
      | none => none
      | some s2 => runLoop d s2 es := rfl

/-- Folding `EnumWindowsCallback` over the enumeration order appends exactly
the windows the specification describes, in order. -/
theorem foldl_enumCallback (ws : List OSWindow) (acc : List WindowInfo) :
    ws.foldl EnumWindowsCallback acc =
      acc ++ (ws.filter specKeepsWindow).map (fun w => ⟨w.hwnd, w.title⟩) := by
  induction ws generalizing acc with
  | nil => simp
  | cons w ws ih =>
    rw [List.foldl_cons, ih]
    by_cases hv : w.visible = true
    · by_cases hl : w.titleLen = 0
      · simp [EnumWindowsCallback, specKeepsWindow, hv, hl]
      · by_cases ht : w.title = ("Program Manager").data ∨ w.title = ("Default IME").data ∨
            w.title = ("").data
        · simp [EnumWindowsCallback, specKeepsWindow, hv, hl, ht]
        · simp [EnumWindowsCallback, specKeepsWindow, hv, hl, ht]
    · simp [EnumWindowsCallback, specKeepsWindow, hv]

/-- With duration 0 the loop exits exactly on a cancellation event. -/
theorem runLoop_zero_none_iff (s : LoopState) (evs : List LoopEvent) :
    runLoop 0 s evs = none ↔ LoopEvent.cancel ∈ evs := by
  induction evs generalizing s with
  | nil => simp [runLoop]
  | cons e es ih =>
    cases e with
    | cancel => simp [runLoop_cons, loopStep]
    | timerFire => simpa [runLoop_cons, loopStep] using ih s
    | tick t => simpa [runLoop_cons, loopStep] using ih (tickStep s t)

/-- With a positive duration, a loop that is still alive exits at the first
delivery of the expiry timer, processing nothing that follows it. -/
theorem runLoop_timerFire_exits (d : Nat) (hd : 0 < d) :
    ∀ (pre : List LoopEvent) (s s2 : LoopState) (suf : List LoopEvent),
      runLoop d s pre = some s2 →
      runLoop d s (pre ++ LoopEvent.timerFire :: suf) = none := by
  intro pre
  induction pre with
  | nil =>
    intro s s2 suf _
    simp [runLoop_cons, loopStep, hd]
  | cons e es ih =>
    intro s s2 suf h
    cases he : loopStep d s e with
    | none => rw [runLoop_cons, he] at h; exact Option.noConfusion h
    | some s1 =>
      rw [runLoop_cons, he] at h
      rw [List.cons_append, runLoop_cons, he]
      exact ih s1 s2 suf h

/-- Row-major double iteration over `h` rows of `w` columns visits the flat
pixel indices `0, …, h*w - 1` in increasing order. -/
theorem range_flatMap_range {α : Type} (f : Nat → List α) (h w : Nat) :
    (List.range h).flatMap (fun y => (List.range w).flatMap (fun x => f (y * w + x))) =
      (List.range (h * w)).flatMap f := by
  induction h with
  | zero => simp
  | succ h ih =>
    rw [List.range_succ, List.flatMap_append, ih, Nat.succ_mul, List.range_add,
      List.flatMap_append, List.flatMap_map]
    simp

/-- Length of a concatenation of `n` four-byte blocks. -/
theorem flatMap_blocks_length {α : Type} (blk : Nat → List α)
    (hb : ∀ i, (blk i).length = 4) (n : Nat) :
    ((List.range n).flatMap blk).length = 4 * n := by
  induction n with
  | zero => simp
  | succ n ih =>
    rw [List.range_succ, List.flatMap_append]
    simp [ih, hb]
    omega

/-- Element lookup inside a concatenation of four-byte blocks. -/
theorem flatMap_blocks_getD {α : Type} (blk : Nat → List α)
    (hb : ∀ i, (blk i).length = 4) (d : α) :
    ∀ n i j, i < n → j < 4 →
      ((List.range n).flatMap blk).getD (4 * i + j) d = (blk i).getD j d := by
  intro n
  induction n with
  | zero => intro i j hi _; exact absurd hi (Nat.not_lt_zero i)
  | succ n ih =>
    intro i j hi hj
    have hlen := flatMap_blocks_length blk hb n
    rw [List.range_succ, List.flatMap_append]
    by_cases h : i < n
    · rw [List.getD_append _ _ _ _ (by rw [hlen]; omega)]
      exact ih i j h hj
    · have hin : i = n := by omega
      subst hin
      rw [List.getD_append_right _ _ _ _ (by rw [hlen]; omega), hlen]
      have h2 : 4 * i + j - 4 * i = j := by omega
      rw [h2]
      simp

/-- Value of each decimal digit character. -/
theorem digitChar_toNat (d : Nat) (hd : d < 10) : (digitChar d).toNat = 48 + d := by
  interval_cases d <;> decide

/-- Folding the decimal-value step over the rendered digits of `n`
reconstructs `n` on top of the incoming accumulator. -/
theorem decFold_natDigitsAux (fuel : Nat) :
    ∀ n a, n ≤ fuel →
      List.foldl decStep a ((natDigitsAux fuel n).map digitChar) =
        a * 10 ^ (natDigitsAux fuel n).length + n := by
  induction fuel with
  | zero =>
    intro n a hn
    have h0 : n = 0 := Nat.le_zero.mp hn
    subst h0
    simp [natDigitsAux]
  | succ fuel ih =>
    intro n a hn
    by_cases h0 : n = 0
    · subst h0; simp [natDigitsAux]
    · simp only [natDigitsAux, if_neg h0]
      rw [List.map_append, List.foldl_append]
      have hdiv : n / 10 ≤ fuel := by
        have := Nat.div_lt_self (Nat.pos_of_ne_zero h0) (by omega : 1 < 10)
        omega
      rw [ih (n / 10) a hdiv]
      have hmod : (digitChar (n % 10)).toNat - 48 = n % 10 := by
        rw [digitChar_toNat (n % 10) (Nat.mod_lt n (by omega))]
        omega
      simp only [List.map_cons, List.map_nil, List.foldl_cons, List.foldl_nil, decStep,
        hmod, List.length_append, List.length_cons, List.length_nil, Nat.zero_add]
      generalize (natDigitsAux fuel (n / 10)).length = L
      have hp : a * 10 ^ (L + 1) = a * 10 ^ L * 10 := by ring
      rw [hp]
      generalize a * 10 ^ L = P
      omega

/-- The decimal rendering of `n` evaluates back to `n`. -/
theorem decValue_natToDecChars (n : Nat) : decValue (natToDecChars n) = n := by
  by_cases h0 : n = 0
  · subst h0; decide
  · rw [natToDecChars, if_neg h0, natDigits, decValue,
      decFold_natDigitsAux n n 0 (Nat.le_refl n)]
    simp

/-- Leading zero characters do not change the decimal value. -/
theorem decValue_leftPad (k : Nat) (s : List Char) :
    decValue (List.replicate k '0' ++ s) = decValue s := by
  have hz : ∀ m : Nat, List.foldl decStep 0 (List.replicate m '0') = 0 := by
    intro m
    induction m with
    | zero => rfl
    | succ m ih =>
      rw [List.replicate_succ, List.foldl_cons]
      have h0 : decStep 0 '0' = 0 := by decide
      rw [h0]
      exact ih
  rw [decValue, decValue, List.foldl_append, hz]

/-- Zero-padded decimal rendering is injective. -/
theorem pad4_inj (m n : Nat) (h : pad4 m = pad4 n) : m = n := by
  have hm : decValue (pad4 m) = m := by
    rw [pad4, leftPadZeros, decValue_leftPad, decValue_natToDecChars]
  have hn : decValue (pad4 n) = n := by
    rw [pad4, leftPadZeros, decValue_leftPad, decValue_natToDecChars]
  rw [← hm, ← hn, h]

/-! ## Claim theorems -/

/-- Claim C7: the window list returned by `GetWindowList` contains exactly
the enumerated windows that are visible, have a non-empty title, and whose
title is outside the exclusion set, as handle/title pairs in enumeration
order, with no deduplication. -/
theorem c7_GetWindowList_exact (ws : List OSWindow) :
    GetWindowList ws = (ws.filter specKeepsWindow).map (fun w => ⟨w.hwnd, w.title⟩) := by
  simpa using foldl_enumCallback ws []

/-- Claim C2: across any sequence of ticks, after one more tick the counter
is 0 exactly when that tick's wall-clock second differs from the previous
one, and is otherwise carried over; in both cases it then grows by one
exactly on a successful capture-and-save. -/
theorem c2_fileSequenceCounter_rule (s0 : LoopState) (ts : List TickInput) (t : TickInput) :
    (runTicks s0 (ts ++ [t])).fileSequenceCounter =
      (if t.second ≠ (runTicks s0 ts).lastSecond then 0
       else (runTicks s0 ts).fileSequenceCounter) +
      (if t.captureOk && t.saveOk then 1 else 0) := by
  have hstep : runTicks s0 (ts ++ [t]) = tickStep (runTicks s0 ts) t := by
    simp [runTicks, List.foldl_append]
  rw [hstep]
  by_cases h1 : t.second = (runTicks s0 ts).lastSecond <;>
    by_cases h2 : t.captureOk = true <;>
      by_cases h3 : t.saveOk = true <;>
        simp [tickStep, h1, h2, h3]

/-- Claim C3 counterexample: a start request from `Idle` with
`targetWindow = 0` writes `IsCapturing = true` before the validation runs,
so the session is transiently observed as `Capturing` — refuting "the
session state remains Idle throughout (it is never observed as
Capturing)". -/
theorem c3_counterexample :
    (startCapture ⟨false, 0, 0⟩ 0 1000 true).2.1 = [true, false] ∧
    true ∈ (startCapture ⟨false, 0, 0⟩ 0 1000 true).2.1 := by
  constructor
  · rfl
  · simp [startCapture]

/-- Claim C3 (amended): a start request from `Idle` with `targetWindow = 0`
or `intervalMs ≤ 0` is rejected — no capture tick can run and the session
ends back in `Idle` — but `IsCapturing` is transiently set to `true` before
the rejection takes effect. -/
theorem c3_rejected_start (s : Session) (hwnd : Nat) (intervalMs : Int)
    (mkdirOk : Bool) (hidle : s.isCapturing = false)
    (hbad : hwnd = 0 ∨ intervalMs ≤ 0) :
    (startCapture s hwnd intervalMs mkdirOk).1.isCapturing = false ∧
    (startCapture s hwnd intervalMs mkdirOk).2.2 = false ∧
    (startCapture s hwnd intervalMs mkdirOk).2.1 = [true, false] := by
  rcases hbad with h | h
  · simp [startCapture, hidle, h]
  · by_cases hw : hwnd = 0
    · simp [startCapture, hidle, hw]
    · simp [startCapture, hidle, hw, h]

/-- Witness for the amended C3 at a concrete rejected start. -/
theorem c3_rejected_start_witness :
    (⟨false, 0, 0⟩ : Session).isCapturing = false ∧
    ((startCapture ⟨false, 0, 0⟩ 0 1000 true).1.isCapturing = false ∧
     (startCapture ⟨false, 0, 0⟩ 0 1000 true).2.2 = false ∧
     (startCapture ⟨false, 0, 0⟩ 0 1000 true).2.1 = [true, false]) :=
  ⟨rfl, c3_rejected_start ⟨false, 0, 0⟩ 0 1000 true rfl (Or.inl rfl)⟩

/-- Claim C9: a start request issued while the session is already
`Capturing` is a no-op — the session (state and counters) is returned
unchanged, nothing is written to `IsCapturing`, and no loop is spawned. -/
theorem c9_start_while_capturing_noop (s : Session) (hwnd : Nat) (intervalMs : Int)
    (mkdirOk : Bool) (h : s.isCapturing = true) :
    startCapture s hwnd intervalMs mkdirOk = (s, [], false) := by
  simp [startCapture, h]

/-- Witness for C9 at a concrete capturing session. -/
theorem c9_witness :
    (⟨true, 4, 2⟩ : Session).isCapturing = true ∧
    startCapture ⟨true, 4, 2⟩ 7 1000 true = (⟨true, 4, 2⟩, [], false) :=
  ⟨rfl, c9_start_while_capturing_noop ⟨true, 4, 2⟩ 7 1000 true rfl⟩

/-- Claim C5: with `durationMinutes = 0` the loop exits exactly on an
explicit stop/cancellation (never an auto-stop); with `durationMinutes > 0`
a still-running loop exits as soon as the expiry timer event is delivered,
processing no later event. -/
theorem c5_duration_behaviour (s : LoopState) (evs : List LoopEvent) :
    (runLoop 0 s evs = none ↔ LoopEvent.cancel ∈ evs) ∧
    (∀ d, 0 < d → ∀ (pre : List LoopEvent) (s2 : LoopState) (suf : List LoopEvent),
      runLoop d s pre = some s2 →
      runLoop d s (pre ++ LoopEvent.timerFire :: suf) = none) :=
  ⟨runLoop_zero_none_iff s evs,
   fun d hd pre s2 suf h => runLoop_timerFire_exits d hd pre s s2 suf h⟩

/-- Witness for C5 with duration 1 and a timer event after an empty prefix. -/
theorem c5_witness :
    0 < 1 ∧
    runLoop 1 ⟨0, 0, 0⟩ (([] : List LoopEvent) ++ LoopEvent.timerFire :: []) = none :=
  ⟨Nat.one_pos, (c5_duration_behaviour ⟨0, 0, 0⟩ []).2 1 Nat.one_pos [] ⟨0, 0, 0⟩ [] rfl⟩

/-- Claim C6 counterexample: on a tick whose capture fails but whose
wall-clock second differs from the previous tick's, `fileSequenceCounter`
is reset to 0 before the capture attempt, so it is NOT unchanged — refuting
"the capture count and FileSequenceCounter are unchanged for that tick". -/
theorem c6_counterexample :
    (⟨0, 3, 5⟩ : LoopState).fileSequenceCounter = 3 ∧
    (⟨1, false, true⟩ : TickInput).captureOk = false ∧
    (tickStep ⟨0, 3, 5⟩ ⟨1, false, true⟩).fileSequenceCounter = 0 :=
  ⟨rfl, rfl, rfl⟩

/-- Claim C6 (amended): on a tick whose capture or save fails, the loop
continues (the error is non-fatal, the next event will be processed), the
capture count is unchanged, and `fileSequenceCounter` is unchanged except
for the second-rollover reset, which happens regardless of the capture
outcome. -/
theorem c6_failed_tick (d : Nat) (s : LoopState) (t : TickInput)
    (hfail : t.captureOk = false ∨ t.saveOk = false) :
    loopStep d s (LoopEvent.tick t) = some (tickStep s t) ∧
    (tickStep s t).captureCount = s.captureCount ∧
    (tickStep s t).fileSequenceCounter =
      (if t.second ≠ s.lastSecond then 0 else s.fileSequenceCounter) := by
  refine ⟨rfl, ?_, ?_⟩ <;>
    rcases hfail with h | h <;>
      by_cases h1 : t.second = s.lastSecond <;>
        simp [tickStep, h, h1]

/-- Witness for the amended C6 at a concrete failing tick. -/
theorem c6_failed_tick_witness :
    ((⟨1, false, true⟩ : TickInput).captureOk = false ∨
      (⟨1, false, true⟩ : TickInput).saveOk = false) ∧
    (loopStep 0 ⟨0, 3, 5⟩ (LoopEvent.tick ⟨1, false, true⟩) =
        some (tickStep ⟨0, 3, 5⟩ ⟨1, false, true⟩) ∧
      (tickStep ⟨0, 3, 5⟩ ⟨1, false, true⟩).captureCount =
        (⟨0, 3, 5⟩ : LoopState).captureCount ∧
      (tickStep ⟨0, 3, 5⟩ ⟨1, false, true⟩).fileSequenceCounter =
        (if (⟨1, false, true⟩ : TickInput).second ≠ (⟨0, 3, 5⟩ : LoopState).lastSecond
         then 0 else (⟨0, 3, 5⟩ : LoopState).fileSequenceCounter)) :=
  ⟨Or.inl rfl, c6_failed_tick 0 ⟨0, 3, 5⟩ ⟨1, false, true⟩ (Or.inl rfl)⟩

/-- Claim C4: the file-name derivation is pure — identical arguments give
the identical path, and the derived path does not depend on (nor change
through) the filesystem the save operation threads. -/
theorem c4_fileSequencer_pure (saveDir : List Char) (t : DateTime) (n : Nat)
    (fs1 fs2 : List (List Char)) :
    nextFileName saveDir t n = nextFileName saveDir t n ∧
    (SaveScreenshotWithCounter fs1 saveDir t n).1 =
      (SaveScreenshotWithCounter fs2 saveDir t n).1 :=
  ⟨rfl, rfl⟩

/-- Claim C10: when the rectangle query, the device contexts, the bitmap
and the pixel extraction all succeed, `CaptureWindow` succeeds even if both
`PrintWindow` and the `BitBlt` fallback fail; indeed the result never
depends on either render outcome, because the fallback's return value is
never read. -/
theorem c10_capture_ignores_render (env : CaptureEnv) (r : RECT) (pd : List Nat)
    (hrect : env.windowRect = some r) (hdc : env.windowDC ≠ 0) (hmem : env.memDC ≠ 0)
    (hbmp : env.hBitmap ≠ 0) (hdib : env.dibExtraction = some pd)
    (hpw : env.printWindowOk = false) (hbb : env.bitBltOk = false) :
    (∀ p b, CaptureWindow ⟨env.windowRect, env.windowDC, env.memDC, env.hBitmap,
        env.selectObjectResult, p, b, env.dibExtraction⟩ = CaptureWindow env) ∧
    (CaptureWindow env).isSome = true := by
  constructor
  · intro p b; rfl
  · simp [CaptureWindow, hrect, hdc, hmem, hbmp, hdib]

/-- Witness for C10 at a concrete environment where both render strategies
fail but everything else succeeds. -/
theorem c10_witness :
    (CaptureWindow ⟨some ⟨0, 0, 1, 1⟩, 2, 3, 4, 0, false, false,
      some [9, 8, 7, 6]⟩).isSome = true :=
  (c10_capture_ignores_render
    ⟨some ⟨0, 0, 1, 1⟩, 2, 3, 4, 0, false, false, some [9, 8, 7, 6]⟩
    ⟨0, 0, 1, 1⟩ [9, 8, 7, 6] rfl (by decide) (by decide) (by decide) rfl rfl rfl).2

/-- Claim C1: for a bitmap of positive width and height whose raw
extraction yields a BGRA buffer of length `width*height*4`, the converter
produces a pixel byte sequence of length `width*height*4` in which, for
every pixel index `i`, the R and B bytes are swapped and the G and A bytes
are copied — every pixel processed exactly once in row-major top-down
order with no other change. -/
theorem c1_bitmapToImage_bgra_to_rgba (w h : Nat) (input : List Nat)
    (hw : 0 < w) (hh : 0 < h) (hlen : input.length = w * h * 4) :
    (bitmapToImage w h input).length = w * h * 4 ∧
    ∀ i, i < w * h →
      (bitmapToImage w h input).getD (4 * i) 0 = input.getD (4 * i + 2) 0 ∧
      (bitmapToImage w h input).getD (4 * i + 1) 0 = input.getD (4 * i + 1) 0 ∧
      (bitmapToImage w h input).getD (4 * i + 2) 0 = input.getD (4 * i) 0 ∧
      (bitmapToImage w h input).getD (4 * i + 3) 0 = input.getD (4 * i + 3) 0 := by
  have hrw : bitmapToImage w h input =
      (List.range (h * w)).flatMap (fun p =>
        [input.getD (p * 4 + 2) 0, input.getD (p * 4 + 1) 0,
         input.getD (p * 4) 0, input.getD (p * 4 + 3) 0]) := by
    rw [bitmapToImage]
    exact range_flatMap_range
      (fun p => [input.getD (p * 4 + 2) 0, input.getD (p * 4 + 1) 0,
        input.getD (p * 4) 0, input.getD (p * 4 + 3) 0]) h w
  have hb : ∀ p : Nat,
      ([input.getD (p * 4 + 2) 0, input.getD (p * 4 + 1) 0,
        input.getD (p * 4) 0, input.getD (p * 4 + 3) 0]).length = 4 := fun _ => rfl
  constructor
  · rw [hrw, flatMap_blocks_length _ hb]
    ring
  · intro i hi
    have hi2 : i < h * w := by rw [Nat.mul_comm h w]; exact hi
    have g0 := flatMap_blocks_getD _ hb 0 (h * w) i 0 hi2 (by omega)
    have g1 := flatMap_blocks_getD _ hb 0 (h * w) i 1 hi2 (by omega)
    have g2 := flatMap_blocks_getD _ hb 0 (h * w) i 2 hi2 (by omega)
    have g3 := flatMap_blocks_getD _ hb 0 (h * w) i 3 hi2 (by omega)
    refine ⟨?_, ?_, ?_, ?_⟩
    · rw [hrw]
      simpa [Nat.mul_comm] using g0
    · rw [hrw]
      simpa [Nat.mul_comm] using g1
    · rw [hrw]
      simpa [Nat.mul_comm] using g2
    · rw [hrw]
      simpa [Nat.mul_comm] using g3

/-- Witness for C1 on a concrete 1×1 BGRA buffer. -/
theorem c1_witness :
    (bitmapToImage 1 1 [1, 2, 3, 4]).length = 1 * 1 * 4 ∧
    ∀ i, i < 1 * 1 →
      (bitmapToImage 1 1 [1, 2, 3, 4]).getD (4 * i) 0 =
        ([1, 2, 3, 4] : List Nat).getD (4 * i + 2) 0 ∧
      (bitmapToImage 1 1 [1, 2, 3, 4]).getD (4 * i + 1) 0 =
        ([1, 2, 3, 4] : List Nat).getD (4 * i + 1) 0 ∧
      (bitmapToImage 1 1 [1, 2, 3, 4]).getD (4 * i + 2) 0 =
        ([1, 2, 3, 4] : List Nat).getD (4 * i) 0 ∧
      (bitmapToImage 1 1 [1, 2, 3, 4]).getD (4 * i + 3) 0 =
        ([1, 2, 3, 4] : List Nat).getD (4 * i + 3) 0 :=
  c1_bitmapToImage_bgra_to_rgba 1 1 [1, 2, 3, 4] (by decide) (by decide) (by decide)

/-- Claim C8: the produced path is `saveDir` joined with
`screenshot_<YYYY-MM-DD_HH-MM-SS>_<counter zero-padded to 4 digits>.png`,
and within one wall-clock second distinct counters yield distinct file
names. -/
theorem c8_nextFileName_format_distinct (saveDir : List Char) (t : DateTime) (n : Nat) :
    nextFileName saveDir t n =
      saveDir ++ ("/").data ++ (("screenshot_").data ++ formatTimestamp t ++ ("_").data ++
        pad4 n ++ (".png").data) ∧
    ∀ m, n ≠ m → nextFileName saveDir t n ≠ nextFileName saveDir t m := by
  refine ⟨rfl, ?_⟩
  intro m hnm heq
  apply hnm
  apply pad4_inj
  simp only [nextFileName] at heq
  have h2 := List.append_cancel_left heq
  have h3 := List.append_cancel_right h2
  exact List.append_cancel_left h3

/-- Witness for C8: counters 0 and 1 in the same second give different
names. -/
theorem c8_witness :
    (0 : Nat) ≠ 1 ∧
    nextFileName [] ⟨2025, 10, 11, 12, 0, 0⟩ 0 ≠ nextFileName [] ⟨2025, 10, 11, 12, 0, 0⟩ 1 :=
  ⟨by decide, (c8_nextFileName_format_distinct [] ⟨2025, 10, 11, 12, 0, 0⟩ 0).2 1 (by decide)⟩

end Screenshot
